import Mathlib

/-!
Shallow embedding of the unary-call pipeline of a gRPC-over-HTTP client
library.  The embedding covers the status-code enumeration with its text
serialization and display (Code.MarshalText, Code.UnmarshalText,
Code.String, the stringToCode and httpToCode tables) and the HTTP
exchange of Client.call together with extractError, the header/trailer
error parser.  Machine integers are modelled as Nat and Int, with the
conversion to the unsigned 32-bit Code type made explicit as reduction
modulo 2^32.
-/

/-- The Code type of the source is a uint32; modelled as Nat (the values
produced by the source stay below 2^32). -/
abbrev Code := Nat

abbrev CodeOK : Code := 0
abbrev CodeCanceled : Code := 1
abbrev CodeUnknown : Code := 2
abbrev CodeInvalidArgument : Code := 3
abbrev CodeDeadlineExceeded : Code := 4
abbrev CodeNotFound : Code := 5
abbrev CodeAlreadyExists : Code := 6
abbrev CodePermissionDenied : Code := 7
abbrev CodeResourceExhausted : Code := 8
abbrev CodeFailedPrecondition : Code := 9
abbrev CodeAborted : Code := 10
abbrev CodeOutOfRange : Code := 11
abbrev CodeUnimplemented : Code := 12
abbrev CodeInternal : Code := 13
abbrev CodeUnavailable : Code := 14
abbrev CodeDataLoss : Code := 15
abbrev CodeUnauthenticated : Code := 16

abbrev minCode : Code := CodeOK
abbrev maxCode : Code := CodeUnauthenticated

/-- The decimal digit character of a value below 10 (the digits emitted
by strconv.Itoa). -/
def digitChar (d : Nat) : Char :=
  match d with
  | 0 => '0' | 1 => '1' | 2 => '2' | 3 => '3' | 4 => '4'
  | 5 => '5' | 6 => '6' | 7 => '7' | 8 => '8' | _ => '9'

/-- Numeric value of a decimal digit character. -/
def digitVal (c : Char) : Nat := c.toNat - 48

/-- Decimal digit list of a natural number, most significant digit
first, with structural fuel (fuel above the value always suffices, and
the wrapper natDigits supplies it): the digit sequence strconv.Itoa
emits for the non-negative values a Code can hold. -/
def natDigitsAux (fuel n : Nat) : List Char :=
  match fuel with
  | 0 => []
  | fuel + 1 =>
    if n < 10 then [digitChar n]
    else natDigitsAux fuel (n / 10) ++ [digitChar (n % 10)]

/-- Decimal digit list of a natural number, most significant first. -/
def natDigits (n : Nat) : List Char := natDigitsAux (n + 1) n

/-- Model of strconv.Itoa on the non-negative values a Code can hold. -/
def itoa (n : Nat) : String := ⟨natDigits n⟩

/-- The character list form of goParseUint32. -/
def goParseUint32List (cs : List Char) : Option Nat :=
  if cs = [] then none
  else if cs.all Char.isDigit then
    let n := cs.foldl (fun a c => a * 10 + digitVal c) 0
    if n < 4294967296 then some n else none
  else none

/-- Model of Go strconv.ParseUint with base 10 and bitSize 32: decimal
digits only (no sign); an empty input, any non-digit character, or a
value that does not fit in 32 bits is an error (none). -/
def goParseUint32 (s : String) : Option Nat := goParseUint32List s.data

/-- Model of Go strconv.Atoi, i.e. ParseInt with base 10 on a 64-bit
int: an optional leading sign followed by at least one decimal digit;
values outside the int64 range are an error (none). -/
def goAtoi (s : String) : Option Int :=
  match s.data with
  | [] => none
  | c :: rest =>
    let neg := c = '-'
    let ds := if c = '-' ∨ c = '+' then rest else c :: rest
    if ds = [] then none
    else if ds.all Char.isDigit then
      let n : Nat := ds.foldl (fun a c => a * 10 + digitVal c) 0
      let v : Int := if neg then -(n : Int) else (n : Int)
      if -9223372036854775808 ≤ v ∧ v ≤ 9223372036854775807 then some v
      else none
    else none

/-- Conversion of a Go signed integer to the unsigned 32-bit Code type:
two-complement truncation, i.e. reduction modulo 2^32. -/
def intToUint32 (v : Int) : Nat := (v % 4294967296).toNat

/-- Model of the %q format verb for the strings that occur here (no
character needing an escape): the string wrapped in double quotes. -/
def goQuote (s : String) : String := "\"" ++ s ++ "\""

/-- The stringToCode map of the source: the 17 upper-case strings of the
gRPC specification, with the British spelling CANCELLED for code 1.  A
Go map lookup is a key-equality test, modelled as a chain of equality
tests. -/
def stringToCode (s : String) : Option Code :=
  if s = "OK" then some CodeOK
  else if s = "CANCELLED" then some CodeCanceled
  else if s = "UNKNOWN" then some CodeUnknown
  else if s = "INVALID_ARGUMENT" then some CodeInvalidArgument
  else if s = "DEADLINE_EXCEEDED" then some CodeDeadlineExceeded
  else if s = "NOT_FOUND" then some CodeNotFound
  else if s = "ALREADY_EXISTS" then some CodeAlreadyExists
  else if s = "PERMISSION_DENIED" then some CodePermissionDenied
  else if s = "RESOURCE_EXHAUSTED" then some CodeResourceExhausted
  else if s = "FAILED_PRECONDITION" then some CodeFailedPrecondition
  else if s = "ABORTED" then some CodeAborted
  else if s = "OUT_OF_RANGE" then some CodeOutOfRange
  else if s = "UNIMPLEMENTED" then some CodeUnimplemented
  else if s = "INTERNAL" then some CodeInternal
  else if s = "UNAVAILABLE" then some CodeUnavailable
  else if s = "DATA_LOSS" then some CodeDataLoss
  else if s = "UNAUTHENTICATED" then some CodeUnauthenticated
  else none

/-- The fixed upper-case spec string of each canonical code: the key of
the stringToCode table of the source that maps to it. -/
def specString (c : Code) : String :=
  if c = CodeOK then "OK"
  else if c = CodeCanceled then "CANCELLED"
  else if c = CodeUnknown then "UNKNOWN"
  else if c = CodeInvalidArgument then "INVALID_ARGUMENT"
  else if c = CodeDeadlineExceeded then "DEADLINE_EXCEEDED"
  else if c = CodeNotFound then "NOT_FOUND"
  else if c = CodeAlreadyExists then "ALREADY_EXISTS"
  else if c = CodePermissionDenied then "PERMISSION_DENIED"
  else if c = CodeResourceExhausted then "RESOURCE_EXHAUSTED"
  else if c = CodeFailedPrecondition then "FAILED_PRECONDITION"
  else if c = CodeAborted then "ABORTED"
  else if c = CodeOutOfRange then "OUT_OF_RANGE"
  else if c = CodeUnimplemented then "UNIMPLEMENTED"
  else if c = CodeInternal then "INTERNAL"
  else if c = CodeUnavailable then "UNAVAILABLE"
  else if c = CodeDataLoss then "DATA_LOSS"
  else if c = CodeUnauthenticated then "UNAUTHENTICATED"
  else ""

/-- The httpToCode map of the source (named httpToGRPC at the call site
of Client.call): HTTP status codes with a dedicated mapping; every other
status falls back to CodeUnknown at the call site. -/
def httpToCode (status : Nat) : Option Code :=
  if status = 400 then some CodeInternal
  else if status = 401 then some CodeUnauthenticated
  else if status = 403 then some CodePermissionDenied
  else if status = 404 then some CodeUnimplemented
  else if status = 429 then some CodeUnavailable
  else if status = 502 then some CodeUnavailable
  else if status = 503 then some CodeUnavailable
  else if status = 504 then some CodeUnavailable
  else none

/-- Code.MarshalText: the decimal numeral of the code, an error (none)
outside [minCode, maxCode]. -/
def Code.marshalText (c : Code) : Option String :=
  if c < minCode ∨ maxCode < c then none
  else some (itoa c)

/-- Code.UnmarshalText: first the stringToCode table, then ParseUint
with base 10 and bitSize 32, then the range check against
[minCode, maxCode]; none models the error return. -/
def Code.unmarshalText (b : String) : Option Code :=
  match stringToCode b with
  | some n => some n
  | none =>
    match goParseUint32 b with
    | none => none
    | some n =>
      let code : Code := n
      if code < minCode ∨ maxCode < code then none
      else some code

/-- Code.String of the source: the fixed Pascal-case display name per
canonical code, and the Code(n) form for every other value (the Go
switch is a chain of equality tests). -/
def Code.string (c : Code) : String :=
  if c = CodeOK then "OK"
  else if c = CodeCanceled then "Canceled"
  else if c = CodeUnknown then "Unknown"
  else if c = CodeInvalidArgument then "InvalidArgument"
  else if c = CodeDeadlineExceeded then "DeadlineExceeded"
  else if c = CodeNotFound then "NotFound"
  else if c = CodeAlreadyExists then "AlreadyExists"
  else if c = CodePermissionDenied then "PermissionDenied"
  else if c = CodeResourceExhausted then "ResourceExhausted"
  else if c = CodeFailedPrecondition then "FailedPrecondition"
  else if c = CodeAborted then "Aborted"
  else if c = CodeOutOfRange then "OutOfRange"
  else if c = CodeUnimplemented then "Unimplemented"
  else if c = CodeInternal then "Internal"
  else if c = CodeUnavailable then "Unavailable"
  else if c = CodeDataLoss then "DataLoss"
  else if c = CodeUnauthenticated then "Unauthenticated"
  else "Code(" ++ itoa c ++ ")"

/-- Opaque structured detail payload: a protobuf Any message, kept as
raw bytes. -/
abbrev Detail := List Nat

/-- The Error type of client.go: a status code, a message and optional
structured details (the wrap and errorf constructors produce these; the
underlying Go error is represented by its message string). -/
structure RErr where
  code : Code
  msg : String
  details : List Detail
  deriving DecidableEq, Repr

/-- The gRPC status fields of an http.Header as extractError reads them
through h.Get: the empty string models an absent header (Go h.Get
returns the empty string when the key is missing). -/
structure GHeader where
  grpcStatus : String
  grpcMessage : String
  grpcStatusDetailsBin : String
  deriving DecidableEq, Repr

/-- The statuspb.Status protobuf message: an int32 code, a message and
a sequence of detail payloads. -/
structure StatusPB where
  code : Int
  message : String
  details : List Detail
  deriving DecidableEq, Repr

/-- External collaborators of extractError that are not part of src/:
percentDecode, decodeBinaryHeader (base64 decoding of a binary header)
and proto.Unmarshal into statuspb.Status.  They are parameters of the
embedding; the theorems below hold for every choice of them. -/
structure Codec where
  percentDecode : String → String
  decodeBinaryHeader : String → Except String (List Nat)
  protoUnmarshalStatus : List Nat → Except String StatusPB

/-- extractError of client.go: success (none) when Grpc-Status is
absent or "0"; otherwise Atoi the status, percent-decode Grpc-Message,
and, when Grpc-Status-Details-Bin is non-empty, decode and parse it,
letting a valid payload override code, message and details. -/
def extractError (cdc : Codec) (h : GHeader) : Option RErr :=
  let codeHeader := h.grpcStatus
  if codeHeader = "" ∨ codeHeader = "0" then none
  else
    match goAtoi codeHeader with
    | none =>
      some ⟨CodeUnknown,
        "gRPC protocol error: got invalid error code " ++ goQuote codeHeader, []⟩
    | some code =>
      let message := cdc.percentDecode h.grpcMessage
      let ret : RErr := ⟨intToUint32 code, message, []⟩
      if h.grpcStatusDetailsBin.length > 0 then
        match cdc.decodeBinaryHeader h.grpcStatusDetailsBin with
        | .error e =>
          some ⟨CodeUnknown,
            "server returned invalid grpc-error-details-bin trailer: " ++ e, []⟩
        | .ok detailsBinary =>
          match cdc.protoUnmarshalStatus detailsBinary with
          | .error e =>
            some ⟨CodeUnknown,
              "server returned invalid protobuf for error details: " ++ e, []⟩
          | .ok st =>
            some { ret with
              details := st.details
              code := intToUint32 st.code
              msg := st.message }
      else some ret

/-- Modelled from the spec: the constant acceptEncodingValue is not in
src/; the spec fixes the advertised accept-encoding set to identity and
gzip. -/
def acceptEncodingValue : String := "identity,gzip"

/-- Rendering of a Go time.Duration given in nanoseconds, as the %v
verb would receive it.  The human-readable unit formatting of the Go
standard library is elided and the raw nanosecond count is shown; no
claim below depends on the rendering. -/
def durationRepr (d : Int) : String := d.repr

/-- The response of the Doer as Client.call consumes it: HTTP status,
the Grpc-Encoding response header, the gRPC status fields of headers
and trailers, and the outcome of unmarshalLPM on the body (the
length-prefixed codec is an external collaborator, so its outcome on
this response is part of the response model). -/
structure RespModel where
  status : Nat
  grpcEncoding : String
  header : GHeader
  trailer : GHeader
  unmarshal : Except String Unit

/-- A transport (Doer) failure: whether it wraps context cancellation,
whether it wraps context deadline expiry, and its message. -/
structure TransportErr where
  isCanceled : Bool
  isDeadlineExceeded : Bool
  message : String

/-- The environment of one Client.call: whether call metadata is on the
context, the remaining time until the context deadline (none when the
context has no deadline), the outcome of marshalLPM on the request, and
what the Doer would return if invoked. -/
structure CallEnv where
  hasMeta : Bool
  deadline : Option Int
  marshal : Except String Unit
  transport : Except TransportErr RespModel

/-- Observable outcome of Client.call: the returned error (none on
success) plus whether the request body was marshalled and whether the
Doer was invoked. -/
structure CallTrace where
  result : Option RErr
  marshalled : Bool
  doerInvoked : Bool

/-- Lines 156 to 189 of client.go: compression validation, header-only
error extraction, body unmarshalling and trailer error extraction, with
the trailer error taking precedence over the unmarshal failure. -/
def framingOutcome (cdc : Codec) (r : RespModel) : Option RErr :=
  let compression := if r.grpcEncoding = "" then "identity" else r.grpcEncoding
  if compression ≠ "identity" ∧ compression ≠ "gzip" then
    some ⟨CodeInternal,
      "unknown compression " ++ goQuote compression ++
        ": accepted grpc-encoding values are " ++ acceptEncodingValue, []⟩
  else
    match extractError cdc r.header with
    | some e => some e
    | none =>
      match extractError cdc r.trailer with
      | some serverErr => some serverErr
      | none =>
        match r.unmarshal with
        | .error m =>
          some ⟨CodeUnknown, "server returned invalid protobuf: " ++ m, []⟩
        | .ok _ => none

/-- Lines 149 to 189 of client.go: the non-200 HTTP status branch (the
httpToCode table with the CodeUnknown fallback of the call site) and
otherwise the framing outcome. -/
def responseOutcome (cdc : Codec) (r : RespModel) : Option RErr :=
  if r.status ≠ 200 then
    some ⟨(httpToCode r.status).getD CodeUnknown,
      "HTTP status " ++ itoa r.status, []⟩
  else framingOutcome cdc r

/-- Client.call of client.go as a whole: metadata check, deadline
check, request marshalling, transport invocation with its error
mapping, then the response outcome. -/
def clientCall (cdc : Codec) (env : CallEnv) : CallTrace :=
  if env.hasMeta = false then
    ⟨some ⟨CodeInternal, "no call metadata available on context", []⟩,
      false, false⟩
  else
    let deadlineExpired :=
      match env.deadline with
      | some d => decide (d ≤ 0)
      | none => false
    if deadlineExpired then
      ⟨some ⟨CodeDeadlineExceeded,
        "no time to make RPC: timeout is " ++ durationRepr (env.deadline.getD 0),
        []⟩, false, false⟩
    else
      match env.marshal with
      | .error m =>
        ⟨some ⟨CodeInvalidArgument, "can't marshal request as protobuf: " ++ m, []⟩,
          true, false⟩
      | .ok _ =>
        match env.transport with
        | .error te =>
          let e :=
            if te.isCanceled then
              RErr.mk CodeCanceled "context canceled" []
            else if te.isDeadlineExceeded then
              RErr.mk CodeDeadlineExceeded "context deadline exceeded" []
            else RErr.mk CodeUnknown te.message []
          ⟨some e, true, true⟩
        | .ok r => ⟨responseOutcome cdc r, true, true⟩

/-- A concrete codec for witnesses: identity percent-decoding, a
byte-wise binary-header decoder, and a status parser returning a fixed
payload carrying the decoded bytes as its single detail. -/
def sampleCodec : Codec where
  percentDecode := fun s => s
  decodeBinaryHeader := fun s => .ok (s.data.map Char.toNat)
  protoUnmarshalStatus := fun bs => .ok ⟨10, "boom", [bs]⟩

/-! ### Helper lemmas on decimal digit strings -/

theorem digitChar_isDigit (d : Nat) (h : d < 10) : (digitChar d).isDigit = true := by
  interval_cases d <;> decide

theorem digitVal_digitChar (d : Nat) (h : d < 10) : digitVal (digitChar d) = d := by
  interval_cases d <;> decide

theorem natDigitsAux_ne_nil (fuel n : Nat) (h : n < fuel) : natDigitsAux fuel n ≠ [] := by
  cases fuel with
  | zero => omega
  | succ fuel =>
    simp only [natDigitsAux]
    split <;> simp

theorem natDigitsAux_all_digit (fuel : Nat) :
    ∀ n, n < fuel → (natDigitsAux fuel n).all Char.isDigit = true := by
  induction fuel with
  | zero => intro n h; omega
  | succ fuel ih =>
    intro n h
    simp only [natDigitsAux]
    split
    · rename_i h10
      simp [digitChar_isDigit n h10]
    · rename_i h10
      rw [List.all_append]
      rw [ih (n / 10) (by omega)]
      simp [digitChar_isDigit (n % 10) (by omega)]

theorem natDigitsAux_foldl (fuel : Nat) :
    ∀ n a, n < fuel →
      (natDigitsAux fuel n).foldl (fun x c => x * 10 + digitVal c) a =
        a * 10 ^ (natDigitsAux fuel n).length + n := by
  induction fuel with
  | zero => intro n a h; omega
  | succ fuel ih =>
    intro n a h
    simp only [natDigitsAux]
    split
    · rename_i h10
      simp [digitVal_digitChar n h10]
    · rename_i h10
      rw [List.foldl_append, List.length_append]
      rw [ih (n / 10) a (by omega)]
      simp only [List.foldl, List.length_cons, List.length_nil]
      rw [digitVal_digitChar (n % 10) (by omega)]
      have hmod : n / 10 * 10 + n % 10 = n := by omega
      calc (a * 10 ^ (natDigitsAux fuel (n / 10)).length + n / 10) * 10 + n % 10
          = a * (10 ^ (natDigitsAux fuel (n / 10)).length * 10) +
              (n / 10 * 10 + n % 10) := by ring
        _ = a * 10 ^ ((natDigitsAux fuel (n / 10)).length + 1) + n := by
            rw [hmod, pow_succ]

theorem natDigits_ne_nil (n : Nat) : natDigits n ≠ [] :=
  natDigitsAux_ne_nil (n + 1) n (by omega)

theorem natDigits_all_digit (n : Nat) : (natDigits n).all Char.isDigit = true :=
  natDigitsAux_all_digit (n + 1) n (by omega)

theorem natDigits_foldl (n : Nat) :
    (natDigits n).foldl (fun x c => x * 10 + digitVal c) 0 = n := by
  have h := natDigitsAux_foldl (n + 1) n 0 (by omega)
  simpa [natDigits] using h

/-- ParseUint applied to the decimal numeral of n recovers n below
2^32 and fails above. -/
theorem goParseUint32_itoa (n : Nat) :
    goParseUint32 (itoa n) = if n < 4294967296 then some n else none := by
  show goParseUint32List (natDigits n) = _
  unfold goParseUint32List
  rw [if_neg (natDigits_ne_nil n), if_pos (natDigits_all_digit n)]
  simp only [natDigits_foldl]

/-- A string made of decimal digits hits no entry of the stringToCode
table. -/
theorem stringToCode_none_of_digits (s : String)
    (h : s.data.all Char.isDigit = true) : stringToCode s = none := by
  have hne : ∀ t : String, t.data.all Char.isDigit = false → s ≠ t := by
    intro t ht he
    rw [he] at h
    rw [h] at ht
    exact Bool.noConfusion ht
  unfold stringToCode
  rw [if_neg (hne "OK" (by decide)), if_neg (hne "CANCELLED" (by decide)),
    if_neg (hne "UNKNOWN" (by decide)), if_neg (hne "INVALID_ARGUMENT" (by decide)),
    if_neg (hne "DEADLINE_EXCEEDED" (by decide)), if_neg (hne "NOT_FOUND" (by decide)),
    if_neg (hne "ALREADY_EXISTS" (by decide)), if_neg (hne "PERMISSION_DENIED" (by decide)),
    if_neg (hne "RESOURCE_EXHAUSTED" (by decide)), if_neg (hne "FAILED_PRECONDITION" (by decide)),
    if_neg (hne "ABORTED" (by decide)), if_neg (hne "OUT_OF_RANGE" (by decide)),
    if_neg (hne "UNIMPLEMENTED" (by decide)), if_neg (hne "INTERNAL" (by decide)),
    if_neg (hne "UNAVAILABLE" (by decide)), if_neg (hne "DATA_LOSS" (by decide)),
    if_neg (hne "UNAUTHENTICATED" (by decide))]

theorem stringToCode_itoa (n : Nat) : stringToCode (itoa n) = none :=
  stringToCode_none_of_digits (itoa n) (natDigits_all_digit n)

/-! ### Claim theorems -/

/-- C6: for every code 0 through 16, parsing the serialized decimal
form yields the code again, parsing the fixed upper-case spec string
yields the code, and the British spelling CANCELLED parses to the
canceled code 1. -/
theorem code_parse_serialize_roundtrip (c : Code) (hc : c ≤ 16) :
    (Code.marshalText c).bind Code.unmarshalText = some c ∧
    Code.unmarshalText (specString c) = some c ∧
    Code.unmarshalText "CANCELLED" = some CodeCanceled := by
  refine ⟨?_, ?_, by decide⟩ <;> interval_cases c <;> decide

/-- Witness for code_parse_serialize_roundtrip at code 10. -/
theorem code_parse_serialize_roundtrip_witness :
    (Code.marshalText 10).bind Code.unmarshalText = some 10 ∧
    Code.unmarshalText (specString 10) = some 10 ∧
    Code.unmarshalText "CANCELLED" = some CodeCanceled :=
  code_parse_serialize_roundtrip 10 (by decide)

/-- C7: serialization fails for every value above the range [0,16] (a
Code is unsigned, so no value sits below it), parsing fails on the
decimal string of every such value, and parsing fails on every string
that is neither a table string nor the numeral of an in-range value. -/
theorem code_out_of_range_rejected (n : Nat) (hn : 16 < n) (s : String)
    (hs : stringToCode s = none)
    (hp : ∀ m, goParseUint32 s = some m → 16 < m) :
    Code.marshalText n = none ∧
    Code.unmarshalText (itoa n) = none ∧
    Code.unmarshalText s = none := by
  refine ⟨?_, ?_, ?_⟩
  · unfold Code.marshalText
    rw [if_pos (Or.inr hn)]
  · unfold Code.unmarshalText
    rw [stringToCode_itoa, goParseUint32_itoa]
    by_cases h32 : n < 4294967296
    · rw [if_pos h32]
      simp only []
      rw [if_pos (Or.inr hn)]
    · rw [if_neg h32]
  · unfold Code.unmarshalText
    rw [hs]
    cases hgp : goParseUint32 s with
    | none => rfl
    | some m =>
      simp only []
      rw [if_pos (Or.inr (hp m hgp))]

/-- Witness for code_out_of_range_rejected at 17 and "banana". -/
theorem code_out_of_range_rejected_witness :
    Code.marshalText 17 = none ∧
    Code.unmarshalText (itoa 17) = none ∧
    Code.unmarshalText "banana" = none :=
  code_out_of_range_rejected 17 (by decide) "banana" (by decide)
    (fun m hm => by
      rw [show goParseUint32 "banana" = none from by decide] at hm
      exact Option.noConfusion hm)

/-- C8: the display operation is total: each of the 17 canonical codes
renders as its fixed Pascal-case name, and every value outside the
table renders as Code(n). -/
theorem code_display_total (c : Code) :
    (c ≤ 16 → Code.string c =
      ["OK", "Canceled", "Unknown", "InvalidArgument", "DeadlineExceeded",
        "NotFound", "AlreadyExists", "PermissionDenied", "ResourceExhausted",
        "FailedPrecondition", "Aborted", "OutOfRange", "Unimplemented",
        "Internal", "Unavailable", "DataLoss", "Unauthenticated"].getD c "") ∧
    (16 < c → Code.string c = "Code(" ++ itoa c ++ ")") := by
  constructor
  · intro h
    interval_cases c <;> rfl
  · intro h
    have hb : ∀ k : Code, k ≤ 16 → c ≠ k := fun k hk =>
      (Nat.lt_of_le_of_lt hk h).ne'
    unfold Code.string
    rw [if_neg (hb 0 (by decide)), if_neg (hb 1 (by decide)),
      if_neg (hb 2 (by decide)), if_neg (hb 3 (by decide)),
      if_neg (hb 4 (by decide)), if_neg (hb 5 (by decide)),
      if_neg (hb 6 (by decide)), if_neg (hb 7 (by decide)),
      if_neg (hb 8 (by decide)), if_neg (hb 9 (by decide)),
      if_neg (hb 10 (by decide)), if_neg (hb 11 (by decide)),
      if_neg (hb 12 (by decide)), if_neg (hb 13 (by decide)),
      if_neg (hb 14 (by decide)), if_neg (hb 15 (by decide)),
      if_neg (hb 16 (by decide))]

/-- Witness for code_display_total at codes 9 and 20. -/
theorem code_display_total_witness :
    Code.string 9 =
      ["OK", "Canceled", "Unknown", "InvalidArgument", "DeadlineExceeded",
        "NotFound", "AlreadyExists", "PermissionDenied", "ResourceExhausted",
        "FailedPrecondition", "Aborted", "OutOfRange", "Unimplemented",
        "Internal", "Unavailable", "DataLoss", "Unauthenticated"].getD 9 "" ∧
    Code.string 20 = "Code(" ++ itoa 20 ++ ")" :=
  ⟨(code_display_total 9).1 (by decide), (code_display_total 20).2 (by decide)⟩

/-- C4: every response status other than 200 fails with the code the
httpToCode table gives (the call site falls back to CodeUnknown when
the table has no entry): 400 to Internal, 401 to Unauthenticated, 403
to PermissionDenied, 404 to Unimplemented, 429, 502, 503 and 504 to
Unavailable, every other non-200 status to Unknown; status 200
produces no HTTP-level error and proceeds to framing. -/
theorem http_status_mapping :
    (∀ (cdc : Codec) (r : RespModel), r.status ≠ 200 →
      responseOutcome cdc r =
        some ⟨(httpToCode r.status).getD CodeUnknown,
          "HTTP status " ++ itoa r.status, []⟩) ∧
    httpToCode 400 = some CodeInternal ∧
    httpToCode 401 = some CodeUnauthenticated ∧
    httpToCode 403 = some CodePermissionDenied ∧
    httpToCode 404 = some CodeUnimplemented ∧
    httpToCode 429 = some CodeUnavailable ∧
    httpToCode 502 = some CodeUnavailable ∧
    httpToCode 503 = some CodeUnavailable ∧
    httpToCode 504 = some CodeUnavailable ∧
    (∀ st, st ≠ 400 → st ≠ 401 → st ≠ 403 → st ≠ 404 → st ≠ 429 →
      st ≠ 502 → st ≠ 503 → st ≠ 504 →
      (httpToCode st).getD CodeUnknown = CodeUnknown) ∧
    (∀ (cdc : Codec) (r : RespModel), r.status = 200 →
      responseOutcome cdc r = framingOutcome cdc r) := by
  refine ⟨?_, by decide, by decide, by decide, by decide, by decide,
    by decide, by decide, by decide, ?_, ?_⟩
  · intro cdc r h
    unfold responseOutcome
    rw [if_pos h]
  · intro st h1 h2 h3 h4 h5 h6 h7 h8
    unfold httpToCode
    rw [if_neg h1, if_neg h2, if_neg h3, if_neg h4, if_neg h5, if_neg h6,
      if_neg h7, if_neg h8]
    rfl
  · intro cdc r h
    unfold responseOutcome
    rw [if_neg (by simp [h])]

/-- Witness for http_status_mapping at statuses 503 and 418. -/
theorem http_status_mapping_witness :
    responseOutcome sampleCodec ⟨503, "", ⟨"", "", ""⟩, ⟨"", "", ""⟩, .ok ()⟩ =
      some ⟨(httpToCode 503).getD CodeUnknown, "HTTP status " ++ itoa 503, []⟩ ∧
    (httpToCode 418).getD CodeUnknown = CodeUnknown :=
  ⟨http_status_mapping.1 sampleCodec ⟨503, "", ⟨"", "", ""⟩, ⟨"", "", ""⟩, .ok ()⟩
      (by decide),
    http_status_mapping.2.2.2.2.2.2.2.2.2.1 418 (by decide) (by decide)
      (by decide) (by decide) (by decide) (by decide) (by decide) (by decide)⟩

/-- C5: a deadline whose remaining duration is at most zero fails the
call with DeadlineExceeded and the no-time-to-make-RPC message, with
the request never marshalled and the Doer never invoked. -/
theorem call_expired_deadline (cdc : Codec) (env : CallEnv) (d : Int)
    (hm : env.hasMeta = true) (hd : env.deadline = some d) (hle : d ≤ 0) :
    clientCall cdc env =
      ⟨some ⟨CodeDeadlineExceeded,
        "no time to make RPC: timeout is " ++ durationRepr d, []⟩,
        false, false⟩ := by
  unfold clientCall
  rw [hm, hd]
  simp [hle]

/-- Witness for call_expired_deadline at remaining duration -5. -/
theorem call_expired_deadline_witness :
    clientCall sampleCodec ⟨true, some (-5), .ok (), .error ⟨false, false, "x"⟩⟩ =
      ⟨some ⟨CodeDeadlineExceeded,
        "no time to make RPC: timeout is " ++ durationRepr (-5), []⟩,
        false, false⟩ :=
  call_expired_deadline sampleCodec
    ⟨true, some (-5), .ok (), .error ⟨false, false, "x"⟩⟩ (-5) rfl rfl (by decide)

/-- C2 (amended): a Grpc-Status of absent (empty) or "0" is success
(nil); otherwise the value is parsed as a signed integer (strconv.Atoi)
and a value that fails that parse yields an error with code CodeUnknown
whose message reports the invalid error code. -/
theorem extract_error_invalid_code (cdc : Codec) (h : GHeader) :
    ((h.grpcStatus = "" ∨ h.grpcStatus = "0") → extractError cdc h = none) ∧
    (¬(h.grpcStatus = "" ∨ h.grpcStatus = "0") → goAtoi h.grpcStatus = none →
      extractError cdc h =
        some ⟨CodeUnknown,
          "gRPC protocol error: got invalid error code " ++ goQuote h.grpcStatus,
          []⟩) := by
  constructor
  · intro hs
    simp only [extractError]
    rw [if_pos hs]
  · intro hs ha
    simp only [extractError, ha]
    rw [if_neg hs]

/-- Claim C2 as stated: the status value is parsed as an unsigned
integer, so every non-success value that fails the unsigned parse
yields an error with code CodeUnknown. -/
def ExtractErrorUnsignedParse : Prop :=
  ∀ (cdc : Codec) (h : GHeader),
    ¬(h.grpcStatus = "" ∨ h.grpcStatus = "0") →
    goParseUint32 h.grpcStatus = none →
    ∃ e, extractError cdc h = some e ∧ e.code = CodeUnknown

/-- C2 counterexample: the Grpc-Status value "-5" fails the unsigned
parse, yet extractError returns an error with code 4294967291 (the
signed Atoi accepts the value), not CodeUnknown. -/
theorem extract_error_invalid_code_cex : ¬ ExtractErrorUnsignedParse := by
  intro hcl
  obtain ⟨e, he, hcode⟩ := hcl sampleCodec ⟨"-5", "", ""⟩ (by decide) (by decide)
  rw [show extractError sampleCodec ⟨"-5", "", ""⟩ = some ⟨4294967291, "", []⟩
    from by decide] at he
  cases he
  exact absurd hcode (by decide)

/-- Witness for extract_error_invalid_code with an absent status and
the non-numeric status "abc". -/
theorem extract_error_invalid_code_witness :
    extractError sampleCodec ⟨"", "", ""⟩ = none ∧
    extractError sampleCodec ⟨"abc", "", ""⟩ =
      some ⟨CodeUnknown,
        "gRPC protocol error: got invalid error code " ++ goQuote "abc", []⟩ :=
  ⟨(extract_error_invalid_code sampleCodec ⟨"", "", ""⟩).1 (Or.inl rfl),
    (extract_error_invalid_code sampleCodec ⟨"abc", "", ""⟩).2 (by decide) (by decide)⟩

/-- C3: on the non-success path with a Grpc-Status-Details-Bin value
present, a failing base64 decode or protobuf parse yields an error with
code CodeUnknown, and a valid payload overrides the header-derived code
and message and installs the payload details. -/
theorem extract_error_details_override (cdc : Codec) (h : GHeader) (n : Int)
    (hs : ¬(h.grpcStatus = "" ∨ h.grpcStatus = "0"))
    (ha : goAtoi h.grpcStatus = some n)
    (hd : h.grpcStatusDetailsBin.length > 0) :
    (∀ e, cdc.decodeBinaryHeader h.grpcStatusDetailsBin = .error e →
      extractError cdc h =
        some ⟨CodeUnknown,
          "server returned invalid grpc-error-details-bin trailer: " ++ e, []⟩) ∧
    (∀ bs e, cdc.decodeBinaryHeader h.grpcStatusDetailsBin = .ok bs →
      cdc.protoUnmarshalStatus bs = .error e →
      extractError cdc h =
        some ⟨CodeUnknown,
          "server returned invalid protobuf for error details: " ++ e, []⟩) ∧
    (∀ bs st, cdc.decodeBinaryHeader h.grpcStatusDetailsBin = .ok bs →
      cdc.protoUnmarshalStatus bs = .ok st →
      extractError cdc h = some ⟨intToUint32 st.code, st.message, st.details⟩) := by
  refine ⟨?_, ?_, ?_⟩
  · intro e h1
    simp only [extractError, ha, h1]
    rw [if_neg hs, if_pos hd]
  · intro bs e h1 h2
    simp only [extractError, ha, h1, h2]
    rw [if_neg hs, if_pos hd]
  · intro bs st h1 h2
    simp only [extractError, ha, h1, h2]
    rw [if_neg hs, if_pos hd]

/-- Witness for extract_error_details_override on the valid-payload
branch with sampleCodec. -/
theorem extract_error_details_override_witness :
    extractError sampleCodec ⟨"3", "", "AB"⟩ =
      some ⟨intToUint32 10, "boom", [[65, 66]]⟩ :=
  (extract_error_details_override sampleCodec ⟨"3", "", "AB"⟩ 3
      (by decide) (by decide) (by decide)).2.2 [65, 66] ⟨10, "boom", [[65, 66]]⟩
    rfl rfl

/-- C9: extractError performs no range validation: with the details-bin
value absent, any Grpc-Status whose signed parse gives n other than 0
yields an error whose code is the raw uint32 conversion of n, which can
lie outside [0,16], as the value -5 shows. -/
theorem extract_error_no_range_check (cdc : Codec) (h : GHeader) (n : Int)
    (ha : goAtoi h.grpcStatus = some n) (hn : n ≠ 0)
    (hd : h.grpcStatusDetailsBin = "") :
    extractError cdc h =
      some ⟨intToUint32 n, cdc.percentDecode h.grpcMessage, []⟩ ∧
    extractError sampleCodec ⟨"-5", "", ""⟩ = some ⟨4294967291, "", []⟩ ∧
    16 < (4294967291 : Nat) := by
  refine ⟨?_, by decide, by decide⟩
  have hs : ¬(h.grpcStatus = "" ∨ h.grpcStatus = "0") := by
    rintro (h1 | h1) <;> rw [h1] at ha
    · rw [show goAtoi "" = none from by decide] at ha
      exact Option.noConfusion ha
    · rw [show goAtoi "0" = some 0 from by decide] at ha
      injection ha with h0
      exact hn h0.symm
  simp only [extractError, ha, hd]
  rw [if_neg hs, if_neg (by decide)]

/-- Witness for extract_error_no_range_check at Grpc-Status "300". -/
theorem extract_error_no_range_check_witness :
    extractError sampleCodec ⟨"300", "", ""⟩ =
      some ⟨intToUint32 300, sampleCodec.percentDecode "", []⟩ ∧
    extractError sampleCodec ⟨"-5", "", ""⟩ = some ⟨4294967291, "", []⟩ ∧
    16 < (4294967291 : Nat) :=
  extract_error_no_range_check sampleCodec ⟨"300", "", ""⟩ 300
    (by decide) (by decide) rfl

/-- C10: a success-valued ("0") or absent Grpc-Status yields nil for
every message and every details-bin payload: the payload is never
consulted, even one that would encode a non-OK code. -/
theorem extract_error_success_ignores_details (cdc : Codec)
    (st ms det : String) (hs : st = "" ∨ st = "0") :
    extractError cdc ⟨st, ms, det⟩ = none := by
  simp only [extractError]
  rw [if_pos hs]

/-- Witness for extract_error_success_ignores_details with status "0"
and a non-empty details payload. -/
theorem extract_error_success_ignores_details_witness :
    extractError sampleCodec ⟨"0", "message", "PAYLOAD"⟩ = none :=
  extract_error_success_ignores_details sampleCodec "0" "message" "PAYLOAD"
    (Or.inr rfl)

/-- C1: with HTTP status 200 and no error derived from the response
headers (acceptable compression and no header-level gRPC error), a
trailer error is returned even when the body failed to unmarshal; with
no trailer error, an unmarshal failure yields CodeUnknown wrapping it;
with neither, the call succeeds. -/
theorem call_trailer_precedence (cdc : Codec) (r : RespModel)
    (hst : r.status = 200)
    (hcmp : r.grpcEncoding = "" ∨ r.grpcEncoding = "identity" ∨
      r.grpcEncoding = "gzip")
    (hh : extractError cdc r.header = none) :
    (∀ e, extractError cdc r.trailer = some e →
      responseOutcome cdc r = some e) ∧
    (extractError cdc r.trailer = none → ∀ m, r.unmarshal = .error m →
      responseOutcome cdc r =
        some ⟨CodeUnknown, "server returned invalid protobuf: " ++ m, []⟩) ∧
    (extractError cdc r.trailer = none → r.unmarshal = .ok () →
      responseOutcome cdc r = none) := by
  have hout : responseOutcome cdc r = framingOutcome cdc r := by
    unfold responseOutcome
    rw [if_neg (by simp [hst])]
  refine ⟨?_, ?_, ?_⟩
  · intro e he
    rw [hout]
    unfold framingOutcome
    rcases hcmp with hc | hc | hc <;> simp [hc, hh, he]
  · intro ht m hm
    rw [hout]
    unfold framingOutcome
    rcases hcmp with hc | hc | hc <;> simp [hc, hh, ht, hm]
  · intro ht hu
    rw [hout]
    unfold framingOutcome
    rcases hcmp with hc | hc | hc <;> simp [hc, hh, ht, hu]

/-- Witness for call_trailer_precedence: end-to-end scenario E, a 200
response whose body fails to unmarshal and whose trailer carries
Grpc-Status 10, resolves to the trailer error (code 10, Aborted). -/
theorem call_trailer_precedence_witness :
    responseOutcome sampleCodec
        ⟨200, "", ⟨"", "", ""⟩, ⟨"10", "", ""⟩, .error "corrupt"⟩ =
      some ⟨10, "", []⟩ :=
  (call_trailer_precedence sampleCodec
      ⟨200, "", ⟨"", "", ""⟩, ⟨"10", "", ""⟩, .error "corrupt"⟩
      rfl (Or.inl rfl) (by decide)).1 ⟨10, "", []⟩ (by decide)

